import Mathlib

/-!
Verification development for the `westmont-cs128-f23-a02-localcrawl` repository:
a local-filesystem web-crawler simulator (spider models, URI frontier, dedup
stores, crawl agent) together with a word/two-gram frequency engine.

The Python sources are shallowly embedded below.  Pure functions become Lean
functions; methods that mutate their object become explicit state-passing
functions returning the updated state; methods that may raise become
`Except`/`Option`-valued functions.  Where the repository only ships a TODO
stub (this is a course skeleton), the missing operation is modelled from the
design specification and marked `Modelled from the spec:` in its doc comment.
-/

/-- Universe of Python runtime values used as `TwoGram` tokens.  `TwoGram`
slots hold arbitrary Python objects (`object` type hints in
`freq_models.py`); we model the value kinds the code distinguishes:
the `None` placeholder plus a few concrete runtime types. -/
inductive PyObj where
  | pyNone
  | pyStr (s : String)
  | pyInt (n : Int)
  | pyBool (b : Bool)
deriving DecidableEq, Repr

/-- Python runtime types (`type(x)`) for the modelled value universe. -/
inductive PyType where
  | noneType
  | strType
  | intType
  | boolType
deriving DecidableEq, Repr

/-- Model of Python's `type(x)` on the modelled value universe. -/
def PyObj.typeOf : PyObj → PyType
  | .pyNone => .noneType
  | .pyStr _ => .strType
  | .pyInt _ => .intType
  | .pyBool _ => .boolType

/-- A constructed `TwoGram` from `freq_models.py`: an extension of `Pair`
holding two token slots `_object1` and `_object2`. -/
structure TwoGram where
  object1 : PyObj
  object2 : PyObj
deriving DecidableEq, Repr

/-- Embedding of `TwoGram.__init__` (freq_models.py lines 91-95): succeeds
when `token1 is None or token2 is None or type(token1) == type(token2)`,
otherwise raises `ValueError("Two tokens must be of the same type.")`. -/
def TwoGram.init (token1 token2 : PyObj) : Except String TwoGram :=
  if token1 = PyObj.pyNone ∨ token2 = PyObj.pyNone ∨ token1.typeOf = token2.typeOf then
    Except.ok ⟨token1, token2⟩
  else
    Except.error "Two tokens must be of the same type."

/-- Embedding of the overriding `object1` setter (freq_models.py lines
97-103): accepts `o1` when `o1 is None or type(self._object2) == type(o1)`,
otherwise raises `ValueError`. -/
def TwoGram.setObject1 (g : TwoGram) (o1 : PyObj) : Except String TwoGram :=
  if o1 = PyObj.pyNone ∨ g.object2.typeOf = o1.typeOf then
    Except.ok { g with object1 := o1 }
  else
    Except.error "Two tokens must be of the same type."

/-- Embedding of the overriding `object2` setter (freq_models.py lines
105-111): accepts `o2` when `o2 is None or type(self._object1) == type(o2)`,
otherwise raises `ValueError`. -/
def TwoGram.setObject2 (g : TwoGram) (o2 : PyObj) : Except String TwoGram :=
  if o2 = PyObj.pyNone ∨ g.object1.typeOf = o2.typeOf then
    Except.ok { g with object2 := o2 }
  else
    Except.error "Two tokens must be of the same type."

/-- Modelled from the spec: document fingerprints.  The concrete fingerprint
class `OrbDocFP` and the abstract `SpiderDoc._compute_fingerprint` are TODO
stubs in the repository, so the fingerprint is modelled from the spec:
"opaque, comparable, hashable identity derived deterministically from
document content", with "two fingerprints equal iff derived from identical
content" — i.e. a value in bijection with the content string. -/
structure SpiderDocFP where
  value : String
deriving DecidableEq, Repr

/-- A deterministic hash for fingerprints, standing in for Python's
`hash(fingerprint)` (63-bit polynomial string hash). -/
def SpiderDocFP.pyHash (fp : SpiderDocFP) : Nat :=
  fp.value.data.foldl (fun h c => (h * 31 + c.toNat) % 2 ^ 63) 0

/-- Modelled from the spec: the fingerprint computation performed by
`SpiderDoc._compute_fingerprint` (abstract in `spider_models.py`, TODO in
`orb_models.py`) — it derives the fingerprint deterministically from the
document's content string. -/
def computeFingerprint (content : String) : SpiderDocFP :=
  ⟨content⟩

/-- Embedding of the `SpiderDoc` state (spider_models.py lines 67-74):
instance id `_iid`, optional `_title`, `_content`, and the lazily computed
`_fingerprint` cache, which is `None` until the getter first runs. -/
structure SpiderDoc where
  iid : Nat
  title : Option String
  content : String
  fingerprintCache : Option SpiderDocFP
deriving DecidableEq, Repr

/-- Embedding of `SpiderDoc.__init__` (spider_models.py lines 69-74): the
fresh document starts with an empty `_fingerprint` cache. -/
def SpiderDoc.init (content : String) (title : Option String) (iid : Nat) : SpiderDoc :=
  ⟨iid, title, content, none⟩

/-- Embedding of the `SpiderDoc.fingerprint` property (spider_models.py
lines 106-110): `if not self._fingerprint: self._compute_fingerprint()`,
then return `self._fingerprint`.  Reading the property may mutate the
cache, so the getter returns the value together with the updated state.
(A cached `SpiderDocFP` object is always truthy — the class defines neither
`__bool__` nor `__len__` — so `not self._fingerprint` is exactly the
cache-is-`None` test.) -/
def SpiderDoc.fingerprint (d : SpiderDoc) : SpiderDocFP × SpiderDoc :=
  match d.fingerprintCache with
  | none =>
      let fp := computeFingerprint d.content
      (fp, { d with fingerprintCache := some fp })
  | some fp => (fp, d)

/-- Embedding of `SpiderDoc.__hash__` (spider_models.py lines 76-77):
`hash(self.fingerprint)` — reads the property, possibly mutating `self`. -/
def SpiderDoc.pyHash (d : SpiderDoc) : Nat × SpiderDoc :=
  let (fp, d') := d.fingerprint
  (fp.pyHash, d')

/-- Embedding of `SpiderDoc.__eq__` (spider_models.py lines 79-83) between
two `SpiderDoc`s: `self._fingerprint == other.fingerprint`.  Note the
asymmetry faithful to the source: the left operand's RAW `_fingerprint`
attribute is read (without forcing computation, so a still-`None` cache
compares unequal to every fingerprint object), while the right operand's
`fingerprint` PROPERTY is read, forcing and memoizing its computation.
The updated right operand is returned alongside the result. -/
def SpiderDoc.pyEq (self other : SpiderDoc) : Bool × SpiderDoc :=
  let (fpOther, other') := other.fingerprint
  (match self.fingerprintCache with
   | none => false
   | some fpSelf => decide (fpSelf = fpOther),
   other')

/-- Embedding of the `SpiderURI` state (spider_models.py lines 129-135):
instance id `_iid`, locator string `_uri`, optional properties `_props`
(modelled as an association list). -/
structure SpiderURI where
  iid : Nat
  uri : String
  props : Option (List (String × String))
deriving DecidableEq, Repr

/-- Embedding of the `OrbUriFrontier` state (orb_models.py lines 122-125):
the backing `SimpleQueue` `_q` (front of the queue first) plus the
lookahead slot `_next` holding the element returned by the next
`pop`/`peek`. -/
structure OrbUriFrontier where
  q : List SpiderURI
  next : Option SpiderURI
deriving DecidableEq, Repr

/-- Embedding of `OrbUriFrontier.__len__` (orb_models.py lines 127-128):
`return self._q.qsize() + 1 if self._next else 0`, which by Python
conditional-expression precedence is `(qsize + 1) if _next else 0` — the
queue size plus one when the lookahead slot is filled, and zero otherwise.
(A non-`None` `OrbURI` in `_next` is always truthy.) -/
def OrbUriFrontier.len (f : OrbUriFrontier) : Nat :=
  match f.next with
  | some _ => f.q.length + 1
  | none => 0

/-- Modelled from the spec: `OrbUriFrontier.push` is missing (`push` is
abstract in `spider_models.py` and left TODO in `orb_models.py`).  The spec
says `push` "appends to the back" while the lookahead slot backs
non-destructive `peek`, and a freshly constructed frontier must satisfy
`len() == len(seeds)` and `peek() == seeds[0]` (spec section 8); so a push
onto an empty frontier fills `_next` and any other push enqueues onto the
backing queue. -/
def OrbUriFrontier.push (f : OrbUriFrontier) (u : SpiderURI) : OrbUriFrontier :=
  match f.next with
  | none => { f with next := some u }
  | some _ => { f with q := f.q ++ [u] }

/-- Modelled from the spec: `OrbUriFrontier.pop` is missing (TODO stub).
The spec says `pop` "removes and returns the front item, advancing the
lookahead to the new front", refilling the lookahead slot from the backing
queue whenever it is empty; on an empty frontier we take the spec's
sentinel option (`none`). -/
def OrbUriFrontier.pop (f : OrbUriFrontier) : Option SpiderURI × OrbUriFrontier :=
  match f.next with
  | some u => (some u, ⟨f.q.tail, f.q.head?⟩)
  | none =>
      match f.q with
      | [] => (none, f)
      | u :: rest => (some u, ⟨rest.tail, rest.head?⟩)

/-- Modelled from the spec: `OrbUriFrontier.peek` is missing (TODO stub).
The spec says `peek` "returns the front item without removing", refilling
the lookahead slot from the backing queue whenever it is empty. -/
def OrbUriFrontier.peek (f : OrbUriFrontier) : Option SpiderURI × OrbUriFrontier :=
  match f.next with
  | some u => (some u, f)
  | none =>
      match f.q with
      | [] => (none, f)
      | u :: rest => (some u, ⟨rest, some u⟩)

/-- Embedding of `SpiderUriFrontier.__init__` together with
`OrbUriFrontier.__init__` (spider_models.py lines 337-341, orb_models.py
lines 122-125): the queue and lookahead slot start empty; a `None` or
empty `seeds` argument raises
`ValueError("Seed list of URIs are required.")`; otherwise the seeds are
pushed in order via `push_all` (spider_models.py lines 365-372). -/
def OrbUriFrontier.construct (seeds : Option (List SpiderURI)) :
    Except String OrbUriFrontier :=
  match seeds with
  | none => Except.error "Seed list of URIs are required."
  | some [] => Except.error "Seed list of URIs are required."
  | some (s :: rest) =>
      Except.ok ((s :: rest).foldl OrbUriFrontier.push ⟨[], none⟩)

/-- The URIs still pending in a frontier state: the lookahead slot first
(when filled), then the backing queue front to back. -/
def OrbUriFrontier.pending (f : OrbUriFrontier) : List SpiderURI :=
  match f.next with
  | some u => u :: f.q
  | none => f.q

/-- The sequence of URIs that repeated `pop()` calls starting from a given
state would eventually return (popping until the sentinel). -/
def OrbUriFrontier.drain : OrbUriFrontier → List SpiderURI
  | ⟨q, some u⟩ => u :: OrbUriFrontier.drain ⟨q.tail, q.head?⟩
  | ⟨[], none⟩ => []
  | ⟨u :: rest, none⟩ => u :: OrbUriFrontier.drain ⟨rest.tail, rest.head?⟩
termination_by f => f.pending.length
decreasing_by
  · cases q <;> simp [OrbUriFrontier.pending]
  · cases rest <;> simp [OrbUriFrontier.pending]

/-- The representation invariant of `OrbUriFrontier`: whenever the
lookahead slot is empty, the backing queue is empty too (otherwise the
DO-NOT-MODIFY `__len__` would report zero while items are pending). -/
def OrbUriFrontier.Inv (f : OrbUriFrontier) : Prop :=
  f.next = none → f.q = []

/-- The frontier states reachable through the public interface: successful
construction from a seed list, then any sequence of `push`, `pop`, `peek`. -/
inductive OrbUriFrontier.Reachable : OrbUriFrontier → Prop where
  | construct (seeds : List SpiderURI) (f : OrbUriFrontier)
      (h : OrbUriFrontier.construct (some seeds) = Except.ok f) :
      OrbUriFrontier.Reachable f
  | push (f : OrbUriFrontier) (u : SpiderURI) (h : OrbUriFrontier.Reachable f) :
      OrbUriFrontier.Reachable (f.push u)
  | pop (f : OrbUriFrontier) (h : OrbUriFrontier.Reachable f) :
      OrbUriFrontier.Reachable (f.pop).2
  | peek (f : OrbUriFrontier) (h : OrbUriFrontier.Reachable f) :
      OrbUriFrontier.Reachable (f.peek).2

/-- Embedding of `SpiderUriFrontier.__bool__` (spider_models.py lines
343-344): `return len(self) > 0`. -/
def OrbUriFrontier.toBool (f : OrbUriFrontier) : Bool :=
  decide (0 < f.len)

/-- Modelled from the spec: the concrete dedup store `OrbDB` (and its
`__len__`) is a TODO stub; the spec describes the stores as set-like
collections of artifacts, which we model as the list of stored artifacts
with `__len__` its length. -/
structure SpiderDB (α : Type) where
  items : List α
deriving DecidableEq

/-- Length of a dedup store (`SpiderDB.__len__`, abstract in source,
modelled as the number of stored artifacts). -/
def SpiderDB.len {α : Type} (db : SpiderDB α) : Nat :=
  db.items.length

/-- Embedding of `SpiderDB.__bool__` (spider_models.py lines 383-385): the
body is `return len(self) > 0`, although its docstring claims it returns
`True` if the DB is empty. -/
def SpiderDB.toBool {α : Type} (db : SpiderDB α) : Bool :=
  decide (0 < db.len)

/-- Tests whether `needle` is a leading segment of `hay` (character
lists); helper for Python's substring operator. -/
def charsLead : List Char → List Char → Bool
  | [], _ => true
  | _ :: _, [] => false
  | a :: as, b :: bs => decide (a = b) && charsLead as bs

/-- Tests whether `needle` occurs contiguously inside `hay` (character
lists); helper for Python's substring operator. -/
def charsWithin (needle : List Char) : List Char → Bool
  | [] => needle.isEmpty
  | c :: t => charsLead needle (c :: t) || charsWithin needle t

/-- Model of Python's `needle in hay` substring test on strings. -/
def pyIn (needle hay : String) : Bool :=
  charsWithin needle.data hay.data

/-- Embedding of the agent configuration keys consumed by
`OrbAgent._open_uri_as_file` and `OrbLinkProcessor.is_link_external`:
`config["external"]`, `config["encoding"]`, `config["debug"]`.  The
remaining keys (`parser`, `tags`) are consumed only by the TODO `crawl`
implementation and are not modelled. -/
structure AgentConfig where
  external : List String
  encoding : String
  debug : Bool
deriving DecidableEq, Repr

/-- Embedding of the `OrbAgent` state (spider_models.py lines 270-276):
instance id, bound URI, the two shared dedup stores, and the config. -/
structure OrbAgent where
  iid : Nat
  uri : SpiderURI
  docDb : SpiderDB SpiderDocFP
  uriDb : SpiderDB SpiderURI
  config : AgentConfig
deriving DecidableEq

/-- Embedding of `OrbLinkProcessor.is_link_external` (orb_models.py lines
56-75): starts with `is_external = False` and, for each configured
"external" marker token, ORs in `True` when the token occurs in the link
text; an empty marker list leaves the result `False`. -/
def OrbLinkProcessor.is_link_external (agent : OrbAgent) (link : String) : Bool :=
  agent.config.external.foldl
    (fun is_external txt => if pyIn txt link then is_external || true else is_external)
    false

/-- Result of attempting to open a local file: the opened file's handle
(modelled by its contents) or an `OSError`. -/
inductive OpenResult where
  | file (contents : String)
  | oserror (msg : String)
deriving DecidableEq, Repr

/-- Observable outcome of `OrbAgent._open_uri_as_file`: the returned value
(`None` or the opened file), whether `open` was invoked at all, and
whether an error report was printed to `stderr`. -/
structure OpenOutcome where
  result : Option String
  attemptedOpen : Bool
  loggedToStderr : Bool
deriving DecidableEq, Repr

/-- Embedding of `OrbAgent._open_uri_as_file` (orb_models.py lines
83-103), parameterized by the local filesystem `fs` mapping a path to the
outcome of `open`.  If the URI is classified as external the guarded
`open` is skipped and the method falls through, implicitly returning
`None`.  If `open` raises `OSError`, the handler returns `None` after
printing to `stderr` only when `config["debug"]` is set. -/
def OrbAgent.open_uri_as_file (a : OrbAgent) (fs : String → OpenResult) : OpenOutcome :=
  if OrbLinkProcessor.is_link_external a a.uri.uri then
    ⟨none, false, false⟩
  else
    match fs a.uri.uri with
    | OpenResult.file contents => ⟨some contents, true, false⟩
    | OpenResult.oserror _ => ⟨none, true, a.config.debug⟩

/-- Token carried by a `Frequency` (freq_models.py): either a single word
(`str`) or a two-gram of two adjacent word tokens. -/
inductive FreqToken where
  | word (s : String)
  | twogram (t1 t2 : String)
deriving DecidableEq, Repr

/-- Embedding of the populated `Frequency` record (freq_models.py lines
197-218): a token together with its occurrence count. -/
structure Frequency where
  token : FreqToken
  freq : Nat
deriving DecidableEq, Repr

/-- Strict lexicographic comparison of character lists by code point,
matching Python's string comparison. -/
def charsLt : List Char → List Char → Bool
  | [], [] => false
  | [], _ :: _ => true
  | _ :: _, [] => false
  | a :: as, b :: bs => decide (a < b) || (decide (a = b) && charsLt as bs)

/-- Strict lexicographic comparison of strings by code point. -/
def strLt (s t : String) : Bool :=
  charsLt s.data t.data

/-- Non-strict lexicographic comparison of strings by code point. -/
def strLe (s t : String) : Bool :=
  strLt s t || decide (s = t)

/-- The tie-breaking token comparison of the Frequency total order
(spec section 3): lexicographic ascending; for two-grams on the first
element, then the second.  Across kinds, words sort before two-grams (a
single frequency run never mixes kinds). -/
def FreqToken.le : FreqToken → FreqToken → Bool
  | .word s, .word t => strLe s t
  | .word _, .twogram _ _ => true
  | .twogram _ _, .word _ => false
  | .twogram a b, .twogram c d => strLt a c || (decide (a = c) && strLe b d)

/-- The Frequency total order (spec section 3): primary key descending
count, secondary key ascending token comparison. -/
def freqRel (f g : Frequency) : Prop :=
  g.freq < f.freq ∨ (f.freq = g.freq ∧ f.token.le g.token = true)

instance freqRel.decidable : DecidableRel freqRel :=
  fun _ _ => inferInstanceAs (Decidable (_ ∨ _))

/-- String rendering of a token: a plain word as-is, a two-gram as
`Pair.__str__`'s "<object1:object2>". -/
def FreqToken.render : FreqToken → String
  | .word s => s
  | .twogram a b => "<" ++ a ++ ":" ++ b ++ ">"

/-- Rendering of `Frequency.__str__`: "token:freq". -/
def Frequency.render (f : Frequency) : String :=
  f.token.render ++ ":" ++ toString f.freq

/-- Modelled from the spec: `compute_word_freq` (freq_counter.py lines
48-70) is a TODO stub.  Per its docstring and the spec, the output holds
one `Frequency` per unique word of the input with its number of
occurrences, ordered by decreasing frequency with tied words sorted
lexicographically. -/
def compute_word_freq (tokens : List String) : List Frequency :=
  List.insertionSort freqRel
    (tokens.dedup.map (fun t => ⟨FreqToken.word t, tokens.count t⟩))

/-- Modelled from the spec: `compute_twogram_freq` (freq_counter.py lines
73-102) is a TODO stub.  Per its docstring and the spec, it slides a
window of two over consecutive tokens, builds a two-gram per adjacent
pair, and outputs one `Frequency` per unique two-gram with its number of
occurrences, in the same order as `compute_word_freq`. -/
def compute_twogram_freq (tokens : List String) : List Frequency :=
  List.insertionSort freqRel
    (((tokens.zip tokens.tail).map (fun p => FreqToken.twogram p.1 p.2)).dedup.map
      (fun g => ⟨g, ((tokens.zip tokens.tail).map
        (fun p => FreqToken.twogram p.1 p.2)).count g⟩))

/-- Only the `None` value has the `NoneType` runtime type. -/
theorem PyObj.typeOf_eq_noneType_iff (o : PyObj) :
    o.typeOf = PyType.noneType ↔ o = PyObj.pyNone := by
  cases o <;> simp [PyObj.typeOf]

/-- Claim C7: constructing a `TwoGram` with two non-`None` tokens of
different runtime types raises `ValueError`, and construction succeeds
whenever either token is `None` or both tokens have the same runtime type. -/
theorem twoGram_init_type_check (t1 t2 : PyObj) :
    (t1 ≠ PyObj.pyNone → t2 ≠ PyObj.pyNone → t1.typeOf ≠ t2.typeOf →
      TwoGram.init t1 t2 = Except.error "Two tokens must be of the same type.") ∧
    (t1 = PyObj.pyNone ∨ t2 = PyObj.pyNone ∨ t1.typeOf = t2.typeOf →
      TwoGram.init t1 t2 = Except.ok ⟨t1, t2⟩) := by
  constructor
  · intro h1 h2 ht
    unfold TwoGram.init
    rw [if_neg]
    rintro (h | h | h) <;> [exact h1 h; exact h2 h; exact ht h]
  · intro h
    unfold TwoGram.init
    rw [if_pos h]

/-- Witness for claim C7 at concrete inputs: a string/int pair is rejected,
while a `None`/int pair is accepted. -/
theorem twoGram_init_type_check_witness :
    TwoGram.init (PyObj.pyStr "a") (PyObj.pyInt 3)
        = Except.error "Two tokens must be of the same type." ∧
    TwoGram.init PyObj.pyNone (PyObj.pyInt 3)
        = Except.ok ⟨PyObj.pyNone, PyObj.pyInt 3⟩ :=
  ⟨(twoGram_init_type_check (PyObj.pyStr "a") (PyObj.pyInt 3)).1
      (by decide) (by decide) (by decide),
   (twoGram_init_type_check PyObj.pyNone (PyObj.pyInt 3)).2 (Or.inl rfl)⟩

/-- Claim C9: a `TwoGram` constructed with `None` in one slot (which the
constructor permits) rejects, through each setter, every non-`None` value
for the other slot: the setter compares the new value's runtime type with
the runtime type of the opposite slot, which is `NoneType` while unset. -/
theorem twoGram_setter_rejects_when_opposite_none (x v : PyObj) (hv : v ≠ PyObj.pyNone) :
    TwoGram.init PyObj.pyNone x = Except.ok ⟨PyObj.pyNone, x⟩ ∧
    TwoGram.init x PyObj.pyNone = Except.ok ⟨x, PyObj.pyNone⟩ ∧
    TwoGram.setObject2 ⟨PyObj.pyNone, x⟩ v
        = Except.error "Two tokens must be of the same type." ∧
    TwoGram.setObject1 ⟨x, PyObj.pyNone⟩ v
        = Except.error "Two tokens must be of the same type." := by
  have hvt : PyObj.typeOf v ≠ PyType.noneType := by
    intro h
    exact hv ((PyObj.typeOf_eq_noneType_iff v).mp h)
  refine ⟨?_, ?_, ?_, ?_⟩
  · unfold TwoGram.init
    rw [if_pos (Or.inl rfl)]
  · unfold TwoGram.init
    rw [if_pos (Or.inr (Or.inl rfl))]
  · unfold TwoGram.setObject2
    rw [if_neg]
    rintro (h | h) <;> [exact hv h; exact hvt h.symm]
  · unfold TwoGram.setObject1
    rw [if_neg]
    rintro (h | h) <;> [exact hv h; exact hvt h.symm]

/-- Witness for claim C9: with the second slot `"b"` and first slot unset,
setting the second slot to the same-typed string `"c"` still raises, since
the opposite (first) slot has runtime type `NoneType`. -/
theorem twoGram_setter_rejects_when_opposite_none_witness :
    TwoGram.setObject2 ⟨PyObj.pyNone, PyObj.pyStr "b"⟩ (PyObj.pyStr "c")
        = Except.error "Two tokens must be of the same type." :=
  (twoGram_setter_rejects_when_opposite_none (PyObj.pyStr "b") (PyObj.pyStr "c")
    (by decide)).2.2.1

/-- Reading the fingerprint property stores the returned value in the cache. -/
theorem SpiderDoc.fingerprint_caches (d : SpiderDoc) :
    (d.fingerprint).2.fingerprintCache = some (d.fingerprint).1 := by
  cases h : d.fingerprintCache <;> simp [SpiderDoc.fingerprint, h]

/-- Reading the fingerprint property is idempotent: a second read returns
the same value and leaves the state untouched. -/
theorem SpiderDoc.fingerprint_idem (d : SpiderDoc) :
    (d.fingerprint).2.fingerprint = ((d.fingerprint).1, (d.fingerprint).2) := by
  cases h : d.fingerprintCache <;> simp [SpiderDoc.fingerprint, h]

/-- Claim C4: the fingerprint is computed at most once, on the first read:
a read with an empty cache computes `computeFingerprint content` and stores
exactly that value; a read with a populated cache returns the cached value
and performs no computation and no state change (in particular the second
and every later read of the property returns the same memoized value with
the state — hence the cached fingerprint — unchanged). -/
theorem spiderDoc_fingerprint_memoized (d : SpiderDoc) :
    (d.fingerprintCache = none →
      d.fingerprint = (computeFingerprint d.content,
        { d with fingerprintCache := some (computeFingerprint d.content) })) ∧
    (∀ fp, d.fingerprintCache = some fp → d.fingerprint = (fp, d)) ∧
    (d.fingerprint).2.fingerprintCache = some (d.fingerprint).1 ∧
    (d.fingerprint).2.fingerprint = ((d.fingerprint).1, (d.fingerprint).2) := by
  refine ⟨?_, ?_, SpiderDoc.fingerprint_caches d, SpiderDoc.fingerprint_idem d⟩
  · intro h
    unfold SpiderDoc.fingerprint
    rw [h]
  · intro fp h
    unfold SpiderDoc.fingerprint
    rw [h]

/-- Witness for claim C4 on a concrete fresh document: the first read
computes and caches the fingerprint of the content, and the updated
document's cache holds exactly the returned value. -/
theorem spiderDoc_fingerprint_memoized_witness :
    (SpiderDoc.init "hello" none 1).fingerprint
        = (computeFingerprint "hello",
           { SpiderDoc.init "hello" none 1 with
               fingerprintCache := some (computeFingerprint "hello") }) ∧
    ((SpiderDoc.init "hello" none 1).fingerprint).2.fingerprint
        = (((SpiderDoc.init "hello" none 1).fingerprint).1,
           ((SpiderDoc.init "hello" none 1).fingerprint).2) :=
  ⟨(spiderDoc_fingerprint_memoized (SpiderDoc.init "hello" none 1)).1 rfl,
   (spiderDoc_fingerprint_memoized (SpiderDoc.init "hello" none 1)).2.2.2⟩

/-- Claim C1: fingerprints determine document identity.  Identical content
yields equal fingerprints, and once `a.fingerprint == b.fingerprint` has
been evaluated (reading both properties, which memoizes both caches), the
resulting document states satisfy `a == b` and `hash(a) == hash(b)`,
regardless of titles and instance ids. -/
theorem spiderDoc_eq_hash_delegate_to_fingerprint (a b : SpiderDoc)
    (h : (a.fingerprint).1 = (b.fingerprint).1) :
    (a.content = b.content → a.fingerprintCache = none → b.fingerprintCache = none →
      (a.fingerprint).1 = (b.fingerprint).1) ∧
    (SpiderDoc.pyEq (a.fingerprint).2 (b.fingerprint).2).1 = true ∧
    ((a.fingerprint).2.pyHash).1 = ((b.fingerprint).2.pyHash).1 := by
  refine ⟨?_, ?_, ?_⟩
  · intro hc ha hb
    unfold SpiderDoc.fingerprint
    rw [ha, hb, hc]
  · unfold SpiderDoc.pyEq
    rw [SpiderDoc.fingerprint_idem b, SpiderDoc.fingerprint_caches a]
    simpa using h
  · unfold SpiderDoc.pyHash
    rw [SpiderDoc.fingerprint_idem a, SpiderDoc.fingerprint_idem b, h]

/-- Witness for claim C1: two fresh documents with identical content but
different titles and instance ids compare equal and hash equal after their
fingerprints are read. -/
theorem spiderDoc_eq_hash_delegate_to_fingerprint_witness :
    ((SpiderDoc.init "same content" none 1).fingerprint).1
        = ((SpiderDoc.init "same content" (some "title B") 2).fingerprint).1 ∧
    (SpiderDoc.pyEq ((SpiderDoc.init "same content" none 1).fingerprint).2
        ((SpiderDoc.init "same content" (some "title B") 2).fingerprint).2).1 = true ∧
    (((SpiderDoc.init "same content" none 1).fingerprint).2.pyHash).1
        = (((SpiderDoc.init "same content" (some "title B") 2).fingerprint).2.pyHash).1 :=
  ⟨rfl,
   (spiderDoc_eq_hash_delegate_to_fingerprint (SpiderDoc.init "same content" none 1)
      (SpiderDoc.init "same content" (some "title B") 2) rfl).2.1,
   (spiderDoc_eq_hash_delegate_to_fingerprint (SpiderDoc.init "same content" none 1)
      (SpiderDoc.init "same content" (some "title B") 2) rfl).2.2⟩

/-- Refilling the lookahead from the queue leaves the pending sequence
equal to the old queue contents. -/
theorem OrbUriFrontier.pending_advance (q : List SpiderURI) :
    (OrbUriFrontier.mk q.tail q.head?).pending = q := by
  cases q <;> simp [OrbUriFrontier.pending]

/-- Draining a frontier by repeated pops returns exactly the pending
sequence, in every state. -/
theorem OrbUriFrontier.drain_eq_pending (f : OrbUriFrontier) :
    f.drain = f.pending := by
  induction f using OrbUriFrontier.drain.induct with
  | case1 q u ih =>
      rw [OrbUriFrontier.drain, ih, OrbUriFrontier.pending_advance]
      simp [OrbUriFrontier.pending]
  | case2 =>
      rw [OrbUriFrontier.drain]
      simp [OrbUriFrontier.pending]
  | case3 u rest ih =>
      rw [OrbUriFrontier.drain, ih, OrbUriFrontier.pending_advance]
      simp [OrbUriFrontier.pending]

/-- Every push leaves the lookahead slot filled, so the invariant holds. -/
theorem OrbUriFrontier.inv_push (f : OrbUriFrontier) (u : SpiderURI) :
    (f.push u).Inv := by
  cases h : f.next <;> simp [OrbUriFrontier.push, OrbUriFrontier.Inv, h]

/-- Popping preserves the representation invariant. -/
theorem OrbUriFrontier.inv_pop (f : OrbUriFrontier) (hf : f.Inv) :
    (f.pop).2.Inv := by
  cases h : f.next with
  | some u =>
      simp only [OrbUriFrontier.pop, h, OrbUriFrontier.Inv]
      intro hh
      cases hq : f.q with
      | nil => simp
      | cons v rest => rw [hq] at hh; simp at hh
  | none =>
      have hq : f.q = [] := hf h
      simp [OrbUriFrontier.pop, h, hq, OrbUriFrontier.Inv]

/-- Peeking preserves the representation invariant. -/
theorem OrbUriFrontier.inv_peek (f : OrbUriFrontier) (hf : f.Inv) :
    (f.peek).2.Inv := by
  cases h : f.next with
  | some u => simpa [OrbUriFrontier.peek, h] using hf
  | none =>
      have hq : f.q = [] := hf h
      simp [OrbUriFrontier.peek, h, hq]
      exact hf

/-- Pushing a whole seed list preserves the representation invariant. -/
theorem OrbUriFrontier.inv_foldl_push (l : List SpiderURI) (s : OrbUriFrontier)
    (hs : s.Inv) : (l.foldl OrbUriFrontier.push s).Inv := by
  induction l generalizing s with
  | nil => exact hs
  | cons a t ih => exact ih (s.push a) (OrbUriFrontier.inv_push s a)

/-- Every reachable frontier state satisfies the representation invariant. -/
theorem OrbUriFrontier.reachable_inv (f : OrbUriFrontier)
    (h : f.Reachable) : f.Inv := by
  induction h with
  | construct seeds f h =>
      match seeds, h with
      | s :: rest, h =>
          rw [OrbUriFrontier.construct] at h
          cases h
          exact OrbUriFrontier.inv_foldl_push _ _ (by intro h; rfl)
  | push f u h ih => exact OrbUriFrontier.inv_push f u
  | pop f h ih => exact OrbUriFrontier.inv_pop f ih
  | peek f h ih => exact OrbUriFrontier.inv_peek f ih

/-- Under the representation invariant, the DO-NOT-MODIFY `__len__` counts
the lookahead slot together with the backing queue exactly. -/
theorem OrbUriFrontier.len_eq_pending_length (f : OrbUriFrontier) (hf : f.Inv) :
    f.len = f.pending.length := by
  cases h : f.next with
  | some u => simp [OrbUriFrontier.len, OrbUriFrontier.pending, h]
  | none =>
      have hq : f.q = [] := hf h
      simp [OrbUriFrontier.len, OrbUriFrontier.pending, h, hq]

/-- Claim C3: on every reachable `OrbUriFrontier` state, `len()` returns
exactly the number of URIs that repeated `pop()` calls would eventually
return, counting the URI held in the lookahead slot `_next` together with
the items in the backing queue. -/
theorem orbUriFrontier_len_counts_drain (f : OrbUriFrontier)
    (h : f.Reachable) :
    f.len = f.drain.length ∧ f.len = f.pending.length := by
  have hp := OrbUriFrontier.len_eq_pending_length f (OrbUriFrontier.reachable_inv f h)
  rw [OrbUriFrontier.drain_eq_pending]
  exact ⟨hp, hp⟩

/-- Witness for claim C3: the frontier freshly constructed from two seeds
(lookahead slot holding the first, backing queue holding the second)
reports length 2, the number of URIs repeated pops return. -/
theorem orbUriFrontier_len_counts_drain_witness :
    OrbUriFrontier.len ⟨[⟨2, "b.html", none⟩], some ⟨1, "a.html", none⟩⟩
      = (OrbUriFrontier.drain ⟨[⟨2, "b.html", none⟩], some ⟨1, "a.html", none⟩⟩).length ∧
    OrbUriFrontier.len ⟨[⟨2, "b.html", none⟩], some ⟨1, "a.html", none⟩⟩
      = (OrbUriFrontier.pending ⟨[⟨2, "b.html", none⟩], some ⟨1, "a.html", none⟩⟩).length :=
  orbUriFrontier_len_counts_drain ⟨[⟨2, "b.html", none⟩], some ⟨1, "a.html", none⟩⟩
    (OrbUriFrontier.Reachable.construct [⟨1, "a.html", none⟩, ⟨2, "b.html", none⟩] _ rfl)

/-- Claim C6: constructing a URI frontier with `None` seeds or an empty
seed list fails fast with `ValueError`, and construction succeeds for
every non-empty seed list. -/
theorem orbUriFrontier_construct_requires_seeds (seeds : List SpiderURI)
    (h : seeds ≠ []) :
    OrbUriFrontier.construct none = Except.error "Seed list of URIs are required." ∧
    OrbUriFrontier.construct (some []) = Except.error "Seed list of URIs are required." ∧
    ∃ f, OrbUriFrontier.construct (some seeds) = Except.ok f := by
  refine ⟨rfl, rfl, ?_⟩
  match seeds, h with
  | s :: rest, _ => exact ⟨_, rfl⟩

/-- Witness for claim C6 at a concrete one-element seed list. -/
theorem orbUriFrontier_construct_requires_seeds_witness :
    OrbUriFrontier.construct none = Except.error "Seed list of URIs are required." ∧
    OrbUriFrontier.construct (some []) = Except.error "Seed list of URIs are required." ∧
    ∃ f, OrbUriFrontier.construct (some [⟨1, "seed.html", none⟩]) = Except.ok f :=
  orbUriFrontier_construct_requires_seeds [⟨1, "seed.html", none⟩] (by decide)

/-- Claim C10: for dedup stores and URI frontiers alike, truthiness agrees
with `len(x) > 0` — `bool(x)` means the collection is non-empty (the
`SpiderDB.__bool__` docstring that claims the opposite is contradicted by
its own body, `return len(self) > 0`). -/
theorem spiderDB_frontier_bool_means_nonempty {α : Type}
    (db : SpiderDB α) (f : OrbUriFrontier) :
    (db.toBool = true ↔ 0 < db.len) ∧
    (db.toBool = true ↔ db.items ≠ []) ∧
    (f.toBool = true ↔ 0 < f.len) ∧
    (f.Reachable → (f.toBool = true ↔ f.drain ≠ [])) := by
  refine ⟨by simp [SpiderDB.toBool], ?_, by simp [OrbUriFrontier.toBool], ?_⟩
  · rw [SpiderDB.toBool]
    simp [SpiderDB.len, List.length_pos]
  · intro hr
    have hp := OrbUriFrontier.len_eq_pending_length f (OrbUriFrontier.reachable_inv f hr)
    rw [OrbUriFrontier.toBool, OrbUriFrontier.drain_eq_pending, hp]
    simp [List.length_pos]

/-- Witness for claim C10: a one-element store and a reachable one-element
frontier are both truthy. -/
theorem spiderDB_frontier_bool_means_nonempty_witness :
    SpiderDB.toBool (⟨["fp1"]⟩ : SpiderDB String) = true ∧
    OrbUriFrontier.toBool ⟨[], some ⟨1, "a.html", none⟩⟩ = true :=
  ⟨(spiderDB_frontier_bool_means_nonempty (⟨["fp1"]⟩ : SpiderDB String)
      ⟨[], some ⟨1, "a.html", none⟩⟩).2.1.mpr (by decide),
   (spiderDB_frontier_bool_means_nonempty (⟨["fp1"]⟩ : SpiderDB String)
      ⟨[], some ⟨1, "a.html", none⟩⟩).2.2.1.mpr (by decide)⟩

/-- Claim C8: `OrbAgent._open_uri_as_file` never lets an individual page
failure propagate.  When the agent's URI is classified as external, no
open is attempted and `None` is returned (nothing logged); when a local
open raises `OSError`, the error is swallowed, `None` is returned, and the
report goes to `stderr` exactly when the `debug` config flag is set. -/
theorem orbAgent_open_uri_swallows_failures (a : OrbAgent) (fs : String → OpenResult) :
    (OrbLinkProcessor.is_link_external a a.uri.uri = true →
      a.open_uri_as_file fs = ⟨none, false, false⟩) ∧
    (OrbLinkProcessor.is_link_external a a.uri.uri = false →
      ∀ msg, fs a.uri.uri = OpenResult.oserror msg →
        (a.open_uri_as_file fs).result = none ∧
        (a.open_uri_as_file fs).attemptedOpen = true ∧
        (a.open_uri_as_file fs).loggedToStderr = a.config.debug) := by
  constructor
  · intro h
    rw [OrbAgent.open_uri_as_file, if_pos h]
  · intro h msg hfs
    rw [OrbAgent.open_uri_as_file, if_neg (by rw [h]; exact Bool.false_ne_true), hfs]
    exact ⟨rfl, rfl, rfl⟩

/-- Witness for claim C8: an agent bound to `https://x.com` (external by
the configured markers) returns `None` without opening, and an agent bound
to a missing local file under the same config returns `None` with the
failure logged (debug flag set). -/
theorem orbAgent_open_uri_swallows_failures_witness :
    OrbAgent.open_uri_as_file
        ⟨1, ⟨1, "https://x.com", none⟩, ⟨[]⟩, ⟨[]⟩,
          ⟨["https://", "http://"], "UTF-8", true⟩⟩
        (fun _ => OpenResult.oserror "No such file or directory")
      = ⟨none, false, false⟩ ∧
    (OrbAgent.open_uri_as_file
        ⟨2, ⟨2, "missing.html", none⟩, ⟨[]⟩, ⟨[]⟩,
          ⟨["https://", "http://"], "UTF-8", true⟩⟩
        (fun _ => OpenResult.oserror "No such file or directory")).result = none ∧
    (OrbAgent.open_uri_as_file
        ⟨2, ⟨2, "missing.html", none⟩, ⟨[]⟩, ⟨[]⟩,
          ⟨["https://", "http://"], "UTF-8", true⟩⟩
        (fun _ => OpenResult.oserror "No such file or directory")).loggedToStderr = true :=
  ⟨(orbAgent_open_uri_swallows_failures
      ⟨1, ⟨1, "https://x.com", none⟩, ⟨[]⟩, ⟨[]⟩,
        ⟨["https://", "http://"], "UTF-8", true⟩⟩
      (fun _ => OpenResult.oserror "No such file or directory")).1 (by decide),
   ((orbAgent_open_uri_swallows_failures
      ⟨2, ⟨2, "missing.html", none⟩, ⟨[]⟩, ⟨[]⟩,
        ⟨["https://", "http://"], "UTF-8", true⟩⟩
      (fun _ => OpenResult.oserror "No such file or directory")).2 (by decide)
      "No such file or directory" rfl).1,
   ((orbAgent_open_uri_swallows_failures
      ⟨2, ⟨2, "missing.html", none⟩, ⟨[]⟩, ⟨[]⟩,
        ⟨["https://", "http://"], "UTF-8", true⟩⟩
      (fun _ => OpenResult.oserror "No such file or directory")).2 (by decide)
      "No such file or directory" rfl).2.2⟩

/-- Two strings with equal character data are equal. -/
theorem str_ext {s t : String} (h : s.data = t.data) : s = t := by
  cases s
  cases t
  exact congrArg String.mk h

/-- Lexicographic character-list comparison is transitive. -/
theorem charsLt_trans (as : List Char) : ∀ bs cs : List Char,
    charsLt as bs = true → charsLt bs cs = true → charsLt as cs = true := by
  induction as with
  | nil =>
      intro bs cs h1 h2
      cases bs with
      | nil => simp [charsLt] at h1
      | cons b bs =>
          cases cs with
          | nil => simp [charsLt] at h2
          | cons c cs => simp [charsLt]
  | cons a as ih =>
      intro bs cs h1 h2
      cases bs with
      | nil => simp [charsLt] at h1
      | cons b bs =>
          cases cs with
          | nil => simp [charsLt] at h2
          | cons c cs =>
              simp only [charsLt, Bool.or_eq_true, Bool.and_eq_true,
                decide_eq_true_eq] at h1 h2 ⊢
              rcases h1 with h1 | ⟨rfl, h1⟩
              · rcases h2 with h2 | ⟨rfl, h2⟩
                · exact Or.inl (lt_trans h1 h2)
                · exact Or.inl h1
              · rcases h2 with h2 | ⟨rfl, h2⟩
                · exact Or.inl h2
                · exact Or.inr ⟨rfl, ih bs cs h1 h2⟩

/-- Lexicographic character-list comparison is trichotomous. -/
theorem charsLt_trichotomy (as : List Char) : ∀ bs : List Char,
    charsLt as bs = true ∨ as = bs ∨ charsLt bs as = true := by
  induction as with
  | nil =>
      intro bs
      cases bs with
      | nil => exact Or.inr (Or.inl rfl)
      | cons b bs => simp [charsLt]
  | cons a as ih =>
      intro bs
      cases bs with
      | nil => simp [charsLt]
      | cons b bs =>
          simp only [charsLt, Bool.or_eq_true, Bool.and_eq_true, decide_eq_true_eq,
            List.cons.injEq]
          rcases lt_trichotomy a b with h | h | h
          · exact Or.inl (Or.inl h)
          · subst h
            rcases ih bs with h2 | h2 | h2
            · exact Or.inl (Or.inr ⟨rfl, h2⟩)
            · exact Or.inr (Or.inl ⟨rfl, h2⟩)
            · exact Or.inr (Or.inr (Or.inr ⟨rfl, h2⟩))
          · exact Or.inr (Or.inr (Or.inl h))

/-- Strict string comparison is transitive. -/
theorem strLt_trans {s t u : String} (h1 : strLt s t = true) (h2 : strLt t u = true) :
    strLt s u = true :=
  charsLt_trans s.data t.data u.data h1 h2

/-- String comparison is trichotomous. -/
theorem strLt_trichotomy (s t : String) :
    strLt s t = true ∨ s = t ∨ strLt t s = true := by
  rcases charsLt_trichotomy s.data t.data with h | h | h
  · exact Or.inl h
  · exact Or.inr (Or.inl (str_ext h))
  · exact Or.inr (Or.inr h)

/-- Non-strict string comparison is total. -/
theorem strLe_total (s t : String) : strLe s t = true ∨ strLe t s = true := by
  simp only [strLe, Bool.or_eq_true, decide_eq_true_eq]
  rcases strLt_trichotomy s t with h | h | h
  · exact Or.inl (Or.inl h)
  · exact Or.inl (Or.inr h)
  · exact Or.inr (Or.inl h)

/-- Non-strict string comparison is transitive. -/
theorem strLe_trans {s t u : String} (h1 : strLe s t = true) (h2 : strLe t u = true) :
    strLe s u = true := by
  simp only [strLe, Bool.or_eq_true, decide_eq_true_eq] at h1 h2 ⊢
  rcases h1 with h1 | rfl
  · rcases h2 with h2 | rfl
    · exact Or.inl (strLt_trans h1 h2)
    · exact Or.inl h1
  · exact h2

/-- The token tie-break comparison is total. -/
theorem FreqToken.leTotal (a b : FreqToken) : a.le b = true ∨ b.le a = true := by
  cases a with
  | word s =>
      cases b with
      | word t => simpa [FreqToken.le] using strLe_total s t
      | twogram c d => simp [FreqToken.le]
  | twogram a1 a2 =>
      cases b with
      | word t => simp [FreqToken.le]
      | twogram c d =>
          simp only [FreqToken.le, Bool.or_eq_true, Bool.and_eq_true, decide_eq_true_eq]
          rcases strLt_trichotomy a1 c with h | h | h
          · exact Or.inl (Or.inl h)
          · subst h
            rcases strLe_total a2 d with h2 | h2
            · exact Or.inl (Or.inr ⟨rfl, h2⟩)
            · exact Or.inr (Or.inr ⟨rfl, h2⟩)
          · exact Or.inr (Or.inl h)

/-- The token tie-break comparison is transitive. -/
theorem FreqToken.leTrans (a b c : FreqToken)
    (hab : a.le b = true) (hbc : b.le c = true) : a.le c = true := by
  cases a with
  | word s =>
      cases c with
      | word u =>
          cases b with
          | word t =>
              simp only [FreqToken.le] at hab hbc ⊢
              exact strLe_trans hab hbc
          | twogram _ _ => simp [FreqToken.le] at hbc
      | twogram _ _ => simp [FreqToken.le]
  | twogram a1 a2 =>
      cases b with
      | word t => simp [FreqToken.le] at hab
      | twogram b1 b2 =>
          cases c with
          | word u => simp [FreqToken.le] at hbc
          | twogram c1 c2 =>
              simp only [FreqToken.le, Bool.or_eq_true, Bool.and_eq_true,
                decide_eq_true_eq] at hab hbc ⊢
              rcases hab with h1 | ⟨he1, hle1⟩
              · rcases hbc with h2 | ⟨he2, _⟩
                · exact Or.inl (strLt_trans h1 h2)
                · exact Or.inl (he2 ▸ h1)
              · subst he1
                rcases hbc with h2 | ⟨he2, hle2⟩
                · exact Or.inl h2
                · exact Or.inr ⟨he2, strLe_trans hle1 hle2⟩

instance freqRel.isTotal : IsTotal Frequency freqRel := by
  constructor
  intro f g
  rcases Nat.lt_trichotomy g.freq f.freq with h | h | h
  · exact Or.inl (Or.inl h)
  · rcases FreqToken.leTotal f.token g.token with ht | ht
    · exact Or.inl (Or.inr ⟨h.symm, ht⟩)
    · exact Or.inr (Or.inr ⟨h, ht⟩)
  · exact Or.inr (Or.inl h)

instance freqRel.isTrans : IsTrans Frequency freqRel := by
  constructor
  intro a b c hab hbc
  rcases hab with h1 | ⟨he1, ht1⟩
  · rcases hbc with h2 | ⟨he2, _⟩
    · exact Or.inl (lt_trans h2 h1)
    · exact Or.inl (he2 ▸ h1)
  · rcases hbc with h2 | ⟨he2, ht2⟩
    · exact Or.inl (he1 ▸ h2)
    · exact Or.inr ⟨he1.trans he2, FreqToken.leTrans _ _ _ ht1 ht2⟩

/-- Claim C2: `compute_word_freq` returns exactly one `Frequency` per
distinct token of its input, each counting that token's occurrences,
sorted by descending count with ties lexicographically ascending; on the
spec's example input the rendered output is
`["sentence:2", "repeats:1", "the:1", "this:1", "word:1"]`. -/
theorem compute_word_freq_correct (tokens : List String) :
    ((compute_word_freq tokens).map Frequency.token).Nodup ∧
    (∀ s : String,
      FreqToken.word s ∈ (compute_word_freq tokens).map Frequency.token ↔ s ∈ tokens) ∧
    (∀ f ∈ compute_word_freq tokens,
      ∃ s, f.token = FreqToken.word s ∧ f.freq = tokens.count s) ∧
    List.Sorted freqRel (compute_word_freq tokens) ∧
    (compute_word_freq ["this", "sentence", "repeats", "the", "word", "sentence"]).map
        Frequency.render
      = ["sentence:2", "repeats:1", "the:1", "this:1", "word:1"] := by
  have hperm : List.Perm (compute_word_freq tokens)
      (tokens.dedup.map (fun t => (⟨FreqToken.word t, tokens.count t⟩ : Frequency))) :=
    List.perm_insertionSort freqRel _
  have hmapperm : List.Perm ((compute_word_freq tokens).map Frequency.token)
      ((tokens.dedup.map (fun t => (⟨FreqToken.word t, tokens.count t⟩ : Frequency))).map
        Frequency.token) := hperm.map _
  have hbase : (tokens.dedup.map
        (fun t => (⟨FreqToken.word t, tokens.count t⟩ : Frequency))).map Frequency.token
      = tokens.dedup.map (fun t => FreqToken.word t) := by
    rw [List.map_map]
    rfl
  refine ⟨?_, ?_, ?_, List.sorted_insertionSort freqRel _, by decide⟩
  · rw [hmapperm.nodup_iff, hbase]
    exact (List.nodup_dedup tokens).map (fun a b h => by simpa using h)
  · intro s
    rw [hmapperm.mem_iff, hbase, List.mem_map]
    constructor
    · rintro ⟨t, ht, he⟩
      obtain rfl : t = s := by simpa using he
      exact List.mem_dedup.mp ht
    · intro hs
      exact ⟨s, List.mem_dedup.mpr hs, rfl⟩
  · intro f hf
    obtain ⟨t, _, heq⟩ := List.mem_map.mp (hperm.mem_iff.mp hf)
    exact ⟨t, by rw [← heq], by rw [← heq]⟩

/-- Witness for claim C2 at the spec's concrete example: the rendered
output list, and membership of `"sentence"` among the output tokens. -/
theorem compute_word_freq_correct_witness :
    (compute_word_freq ["this", "sentence", "repeats", "the", "word", "sentence"]).map
        Frequency.render
      = ["sentence:2", "repeats:1", "the:1", "this:1", "word:1"] ∧
    FreqToken.word "sentence" ∈
      (compute_word_freq ["this", "sentence", "repeats", "the", "word", "sentence"]).map
        Frequency.token :=
  ⟨(compute_word_freq_correct []).2.2.2.2,
   ((compute_word_freq_correct
      ["this", "sentence", "repeats", "the", "word", "sentence"]).2.1 "sentence").mpr
      (by decide)⟩

/-- Claim C5: the counts in the output of `compute_twogram_freq` sum to
`n - 1` for an input of length `n ≥ 2` (the number of adjacent-pair
two-grams built, with repeats) and to `0` for `n < 2`. -/
theorem compute_twogram_freq_counts_sum (tokens : List String) :
    (2 ≤ tokens.length →
      ((compute_twogram_freq tokens).map Frequency.freq).sum = tokens.length - 1) ∧
    (tokens.length < 2 →
      ((compute_twogram_freq tokens).map Frequency.freq).sum = 0) := by
  have key : ((compute_twogram_freq tokens).map Frequency.freq).sum
      = tokens.length - 1 := by
    have hperm : List.Perm (compute_twogram_freq tokens)
        (((tokens.zip tokens.tail).map (fun p => FreqToken.twogram p.1 p.2)).dedup.map
          (fun g => (⟨g, ((tokens.zip tokens.tail).map
            (fun p => FreqToken.twogram p.1 p.2)).count g⟩ : Frequency))) :=
      List.perm_insertionSort freqRel _
    rw [(hperm.map Frequency.freq).sum_eq, List.map_map]
    have h2 : (Frequency.freq ∘ fun g => (⟨g, ((tokens.zip tokens.tail).map
          (fun p => FreqToken.twogram p.1 p.2)).count g⟩ : Frequency))
        = fun g => ((tokens.zip tokens.tail).map
          (fun p => FreqToken.twogram p.1 p.2)).count g := rfl
    rw [h2, List.sum_map_count_dedup_eq_length, List.length_map, List.length_zip,
      List.length_tail]
    omega
  refine ⟨fun _ => key, fun h => ?_⟩
  rw [key]
  omega

/-- Witness for claim C5: a three-token input yields counts summing to 2,
and a one-token input yields counts summing to 0. -/
theorem compute_twogram_freq_counts_sum_witness :
    ((compute_twogram_freq ["a", "b", "a"]).map Frequency.freq).sum = 3 - 1 ∧
    ((compute_twogram_freq ["a"]).map Frequency.freq).sum = 0 :=
  ⟨by
    have h := (compute_twogram_freq_counts_sum ["a", "b", "a"]).1 (by decide)
    simpa using h,
   (compute_twogram_freq_counts_sum ["a"]).2 (by decide)⟩
